import Mathlib

/-! A shallow embedding of the `KillLossSpike` training-loss monitor
(`llmfoundry/callbacks/kill_loss_spike_callback.py`).  Python floats are
modelled as rationals, `numpy.mean` as the exact rational mean, and Python's
built-in `round` as round-half-to-even on rationals.  The host training loop
(composer) is modelled by `runSteps`, which feeds one scalar observation per
step; the step index supplied to a call is the number of previously processed
observations. -/

/-- Python's built-in `round` to an integer: round half to even. -/
def pythonRound (q : ℚ) : ℤ :=
  if q - ⌊q⌋ < 1/2 then ⌊q⌋
  else if 1/2 < q - ⌊q⌋ then ⌊q⌋ + 1
  else if ⌊q⌋ % 2 = 0 then ⌊q⌋ else ⌊q⌋ + 1

/-- `collections.deque(maxlen := cap)` append: keep the `cap` most recent entries. -/
def pushWindow (w : List ℚ) (cap : Nat) (v : ℚ) : List ℚ :=
  (w ++ [v]).drop ((w ++ [v]).length - cap)

/-- `numpy.mean` over the window, as an exact rational. -/
def listMean (w : List ℚ) : ℚ := w.sum / (w.length : ℚ)

/-- Python `max` over a list (0 on the empty list, which callers never pass). -/
def windowMax : List ℚ → ℚ
  | [] => 0
  | x :: xs => xs.foldl max x

/-- Number of window entries strictly greater than the threshold
(`sum(1 for loss in self.loss_window if loss > self.loss_cap)`). -/
def countExceeding (w : List ℚ) (cap : ℚ) : Nat :=
  w.countP (fun l => decide (cap < l))

/-- `_MIN_WINDOW_SIZE` from the source. -/
def MIN_WINDOW_SIZE : Nat := 100

/-- `_MAX_LOSS_CAP` from the source. -/
def MAX_LOSS_CAP : ℚ := 10

/-- `_WINDOW_FRACTION = 0.05` from the source, as the exact rational. -/
def WINDOW_FRACTION : ℚ := 1/20

/-- The per-step loss input: either a single scalar (`state.loss.item()`) or a
non-tensor / multi-loss value that fails the shape check in `batch_end`. -/
inductive Loss where
  | scalar (v : ℚ)
  | nonTensor
deriving DecidableEq

/-- One structured-metadata emission by `_log_metadata`, identified by its key
(`'loss_spike'` or `'high_loss'`). -/
inductive Telemetry where
  | lossSpike
  | highLoss
deriving DecidableEq

/-- The exceptions `batch_end` can raise: `NotImplementedError` from the
scalar-shape check, `LossSpikeError(outlier_multiplier, round(running_loss_avg),
outlier_counter)`, and `HighLossError(loss_cap, window_size)`. -/
inductive MonitorError where
  | notImplementedError
  | lossSpikeError (outlier_multiplier : ℚ) (running_loss_avg : ℤ)
      (outlier_counter : Nat)
  | highLossError (loss_cap : ℚ) (window_size : Nat)
deriving DecidableEq

/-- The mutable state of a `KillLossSpike` callback instance. -/
structure KillLossSpike where
  enabled : Bool
  log_only : Bool
  patience : Nat
  outlier_multiplier : ℚ
  outlier_counter : Nat
  user_defined_window_size : Bool
  window_size : Nat
  loss_window : List ℚ
  user_defined_loss_cap : Bool
  loss_cap : ℚ
deriving DecidableEq

/-- `KillLossSpike.__init__`, with the caller's global rank made explicit
(`self._enabled = (dist.get_global_rank() == 0)`). -/
def init (rank : Nat) (log_only : Bool) (patience : Nat)
    (outlier_multiplier : ℚ) (window_size : Nat) (loss_cap : ℚ) :
    KillLossSpike :=
  { enabled := decide (rank = 0)
    log_only := log_only
    patience := patience
    outlier_multiplier := outlier_multiplier
    outlier_counter := 0
    user_defined_window_size := decide (window_size ≠ MIN_WINDOW_SIZE)
    window_size := window_size
    loss_window := []
    user_defined_loss_cap := decide (loss_cap ≠ MAX_LOSS_CAP)
    loss_cap := loss_cap }

/-- `KillLossSpike.__init__` with every optional argument left at its default. -/
def initDefault (rank : Nat) : KillLossSpike :=
  init rank true 4 2 MIN_WINDOW_SIZE MAX_LOSS_CAP

/-- `KillLossSpike._detect_loss_spike`: returns the detection outcome together
with the updated callback state (the counter is mutated in place in Python). -/
def detect_loss_spike (s : KillLossSpike) (train_loss running_loss_avg : ℚ) :
    Bool × KillLossSpike :=
  if running_loss_avg * s.outlier_multiplier ≤ train_loss then
    if s.patience < s.outlier_counter + 1 then
      (true, { s with outlier_counter := s.outlier_counter + 1 })
    else (false, { s with outlier_counter := s.outlier_counter + 1 })
  else if 0 < s.outlier_counter then
    (false, { s with outlier_counter := 0 })
  else (false, s)

/-- `KillLossSpike._detect_high_losses`. -/
def detect_high_losses (s : KillLossSpike) (current_step : Nat) : Bool :=
  if current_step < s.window_size * 2 then false
  else
    decide ((s.window_size : ℚ) / 2 ≤
      (countExceeding s.loss_window s.loss_cap : ℚ))

/-- The loss-cap calibration inlined in `batch_end`: when the cap was not
user-supplied and the current step equals the window size, set
`loss_cap = min(max(loss_window), loss_cap)`. -/
def calibrate_loss_cap (s : KillLossSpike) (current_step : Nat) :
    KillLossSpike :=
  if s.user_defined_loss_cap = false ∧ current_step = s.window_size then
    { s with loss_cap := min (windowMax s.loss_window) s.loss_cap }
  else s

/-- The running loss average computed in `batch_end` (over the window before
the current value is appended, after any cap calibration). -/
def running_avg (s : KillLossSpike) (current_step : Nat) : ℚ :=
  listMean (calibrate_loss_cap s current_step).loss_window

/-- The spike-detection phase of `batch_end`: cap calibration followed by
`_detect_loss_spike` on the running average. -/
def spike_step (s : KillLossSpike) (train_loss : ℚ) (current_step : Nat) :
    Bool × KillLossSpike :=
  let s1 := calibrate_loss_cap s current_step
  detect_loss_spike s1 train_loss (listMean s1.loss_window)

/-- `self.loss_window.append(train_loss)` at the end of `batch_end`. -/
def append_loss (s : KillLossSpike) (v : ℚ) : KillLossSpike :=
  { s with loss_window := pushWindow s.loss_window s.window_size v }

/-- The visible outcome of one `batch_end` call: the callback state after the
call (mutations made before a raise are kept, as in Python), the metadata
emissions, and the raised exception if any. -/
structure StepResult where
  state : KillLossSpike
  events : List Telemetry
  err : Option MonitorError
deriving DecidableEq

/-- `KillLossSpike.batch_end`.  When a handler raises (`log_only = false`),
the exception propagates before the final `loss_window.append`, so the
observation is not appended on that call. -/
def batch_end (s : KillLossSpike) (loss : Loss) (current_step : Nat) :
    StepResult :=
  match loss with
  | Loss.nonTensor => ⟨s, [], some MonitorError.notImplementedError⟩
  | Loss.scalar train_loss =>
    if s.loss_window.length = s.window_size then
      let d := spike_step s train_loss current_step
      let s2 := d.2
      if d.1 then
        if s2.log_only then
          ⟨append_loss s2 train_loss, [Telemetry.lossSpike], none⟩
        else
          ⟨s2, [Telemetry.lossSpike],
            some (MonitorError.lossSpikeError s2.outlier_multiplier
              (pythonRound (running_avg s current_step)) s2.outlier_counter)⟩
      else if detect_high_losses s2 current_step then
        if s2.log_only then
          ⟨append_loss s2 train_loss, [Telemetry.highLoss], none⟩
        else
          ⟨s2, [Telemetry.highLoss],
            some (MonitorError.highLossError s2.loss_cap s2.window_size)⟩
      else ⟨append_loss s2 train_loss, [], none⟩
    else ⟨append_loss s train_loss, [], none⟩

/-- The host's run-length unit (`composer.core.TimeUnit`), reduced to the
cases `fit_start` distinguishes. -/
inductive TimeUnit where
  | epoch
  | batch
  | other
deriving DecidableEq

/-- `KillLossSpike.fit_start`: one-shot window-size calibration from the
host's `max_duration` (unit and value) and `dataloader_len`, then the window
is re-created empty with the new capacity. -/
def fit_start (s : KillLossSpike) (max_duration : Option (TimeUnit × Nat))
    (dataloader_len : Option Nat) : KillLossSpike :=
  let s1 :=
    if s.user_defined_window_size = false then
      match max_duration with
      | none => s
      | some (unit, value) =>
        let total : Nat :=
          match unit, dataloader_len with
          | TimeUnit.epoch, some dl => dl * value
          | TimeUnit.epoch, none => 0
          | TimeUnit.batch, _ => value
          | TimeUnit.other, _ => 0
        let ws := max s.window_size (pythonRound ((total : ℚ) * WINDOW_FRACTION)).toNat
        { s with window_size := ws }
    else s
  { s1 with loss_window := [] }

/-- The host step loop: feed one scalar observation per call to `batch_end`;
the step index of a call is the number of previously processed observations.
A raised exception stops the loop and propagates. -/
def runSteps (s : KillLossSpike) (losses : List ℚ) (startStep : Nat) :
    StepResult :=
  match losses with
  | [] => ⟨s, [], none⟩
  | v :: rest =>
    let r := batch_end s (Loss.scalar v) startStep
    match r.err with
    | some e => ⟨r.state, r.events, some e⟩
    | none =>
      let r' := runSteps r.state rest (startStep + 1)
      ⟨r'.state, r.events ++ r'.events, r'.err⟩

/-- A detector state with the default configuration (patience 4, multiplier 2)
and four prior consecutive outliers. -/
def streak4 : KillLossSpike := { initDefault 0 with outlier_counter := 4 }

/-- A monitor built at global rank 1 (non-coordinating) with log_only = false,
patience 0, outlier_multiplier 1, user-supplied window size 2 and cap 5, whose
window is full with [1, 1]. -/
def rank1Loaded : KillLossSpike :=
  { init 1 false 0 1 2 5 with loss_window := [1, 1] }

/-- A coordinating-rank monitor with log_only = false, patience 0,
multiplier 2, window size 2, default cap 10, whose window is full with
[2, 3] (running mean 5/2). -/
def spikyHalf : KillLossSpike :=
  { init 0 false 0 2 2 10 with loss_window := [2, 3] }

section Helpers

@[simp] theorem calibrate_fields (s : KillLossSpike) (k : Nat) :
    (calibrate_loss_cap s k).enabled = s.enabled ∧
    (calibrate_loss_cap s k).log_only = s.log_only ∧
    (calibrate_loss_cap s k).patience = s.patience ∧
    (calibrate_loss_cap s k).outlier_multiplier = s.outlier_multiplier ∧
    (calibrate_loss_cap s k).outlier_counter = s.outlier_counter ∧
    (calibrate_loss_cap s k).user_defined_window_size = s.user_defined_window_size ∧
    (calibrate_loss_cap s k).window_size = s.window_size ∧
    (calibrate_loss_cap s k).loss_window = s.loss_window ∧
    (calibrate_loss_cap s k).user_defined_loss_cap = s.user_defined_loss_cap := by
  unfold calibrate_loss_cap
  split <;> simp

theorem detect_snd_fields (s : KillLossSpike) (v m : ℚ) :
    (detect_loss_spike s v m).2.enabled = s.enabled ∧
    (detect_loss_spike s v m).2.log_only = s.log_only ∧
    (detect_loss_spike s v m).2.patience = s.patience ∧
    (detect_loss_spike s v m).2.outlier_multiplier = s.outlier_multiplier ∧
    (detect_loss_spike s v m).2.user_defined_window_size = s.user_defined_window_size ∧
    (detect_loss_spike s v m).2.window_size = s.window_size ∧
    (detect_loss_spike s v m).2.loss_window = s.loss_window ∧
    (detect_loss_spike s v m).2.user_defined_loss_cap = s.user_defined_loss_cap ∧
    (detect_loss_spike s v m).2.loss_cap = s.loss_cap := by
  simp only [detect_loss_spike]
  split
  · split <;> simp
  · split <;> simp

theorem spike_step_snd_fields (s : KillLossSpike) (v : ℚ) (k : Nat) :
    (spike_step s v k).2.enabled = s.enabled ∧
    (spike_step s v k).2.log_only = s.log_only ∧
    (spike_step s v k).2.patience = s.patience ∧
    (spike_step s v k).2.outlier_multiplier = s.outlier_multiplier ∧
    (spike_step s v k).2.user_defined_window_size = s.user_defined_window_size ∧
    (spike_step s v k).2.window_size = s.window_size ∧
    (spike_step s v k).2.loss_window = s.loss_window ∧
    (spike_step s v k).2.user_defined_loss_cap = s.user_defined_loss_cap := by
  obtain ⟨c1, c2, c3, c4, _, c6, c7, c8, c9⟩ := calibrate_fields s k
  obtain ⟨d1, d2, d3, d4, d5, d6, d7, d8, _⟩ := detect_snd_fields
    (calibrate_loss_cap s k) v (listMean (calibrate_loss_cap s k).loss_window)
  simp only [spike_step]
  exact ⟨d1.trans c1, d2.trans c2, d3.trans c3, d4.trans c4, d5.trans c6,
    d6.trans c7, d7.trans c8, d8.trans c9⟩

@[simp] theorem append_loss_fields (s : KillLossSpike) (v : ℚ) :
    (append_loss s v).enabled = s.enabled ∧
    (append_loss s v).log_only = s.log_only ∧
    (append_loss s v).patience = s.patience ∧
    (append_loss s v).outlier_multiplier = s.outlier_multiplier ∧
    (append_loss s v).outlier_counter = s.outlier_counter ∧
    (append_loss s v).user_defined_window_size = s.user_defined_window_size ∧
    (append_loss s v).window_size = s.window_size ∧
    (append_loss s v).user_defined_loss_cap = s.user_defined_loss_cap ∧
    (append_loss s v).loss_cap = s.loss_cap := by
  unfold append_loss
  simp

theorem batch_end_state_cases (s : KillLossSpike) (v : ℚ) (k : Nat) :
    (batch_end s (Loss.scalar v) k).state = append_loss (spike_step s v k).2 v ∨
    (batch_end s (Loss.scalar v) k).state = (spike_step s v k).2 ∨
    (batch_end s (Loss.scalar v) k).state = append_loss s v := by
  simp only [batch_end]
  split
  · split
    · split <;> simp
    · split
      · split <;> simp
      · simp
  · simp

theorem calibrate_loss_cap_of_ne (s : KillLossSpike) (k : Nat)
    (h : k ≠ s.window_size) : calibrate_loss_cap s k = s := by
  unfold calibrate_loss_cap
  rw [if_neg]
  rintro ⟨-, h2⟩
  exact h h2

theorem spike_step_loss_cap (s : KillLossSpike) (v : ℚ) (k : Nat) :
    (spike_step s v k).2.loss_cap = (calibrate_loss_cap s k).loss_cap := by
  simp only [spike_step]
  exact (detect_snd_fields _ _ _).2.2.2.2.2.2.2.2

theorem batch_end_fields (s : KillLossSpike) (v : ℚ) (k : Nat) :
    (batch_end s (Loss.scalar v) k).state.window_size = s.window_size ∧
    (batch_end s (Loss.scalar v) k).state.log_only = s.log_only ∧
    (batch_end s (Loss.scalar v) k).state.user_defined_loss_cap =
      s.user_defined_loss_cap ∧
    (batch_end s (Loss.scalar v) k).state.user_defined_window_size =
      s.user_defined_window_size := by
  obtain ⟨f1, f2, f3, f4, f5, f6, f7, f8⟩ := spike_step_snd_fields s v k
  rcases batch_end_state_cases s v k with h | h | h <;> rw [h] <;>
    simp [append_loss, *]

theorem batch_end_loss_cap_of_ne (s : KillLossSpike) (v : ℚ) (k : Nat)
    (h : k ≠ s.window_size) :
    (batch_end s (Loss.scalar v) k).state.loss_cap = s.loss_cap := by
  have hc : (spike_step s v k).2.loss_cap = s.loss_cap := by
    rw [spike_step_loss_cap, calibrate_loss_cap_of_ne s k h]
  rcases batch_end_state_cases s v k with h' | h' | h' <;> rw [h'] <;>
    simp [append_loss, hc]

theorem batch_end_err_none (s : KillLossSpike) (v : ℚ) (k : Nat)
    (h : s.log_only = true) :
    (batch_end s (Loss.scalar v) k).err = none := by
  have hl : (spike_step s v k).2.log_only = true := by
    rw [(spike_step_snd_fields s v k).2.1, h]
  simp only [batch_end]
  repeat' split
  all_goals simp_all

end Helpers

/-- Claim C1: on an outlier observation (v at least the running mean times
outlier_multiplier, a tie included), the spike detector increments
outlier_counter by one and signals a spike iff the incremented counter is
strictly greater than patience. -/
theorem detect_loss_spike_outlier_spec (s : KillLossSpike) (v m : ℚ)
    (h : m * s.outlier_multiplier ≤ v) :
    (detect_loss_spike s v m).2.outlier_counter = s.outlier_counter + 1 ∧
    ((detect_loss_spike s v m).1 = true ↔
      s.patience < s.outlier_counter + 1) := by
  simp only [detect_loss_spike, if_pos h]
  split <;> simp_all

/-- Claim C1 witness: with patience 4, the 5th consecutive outlier
(counter 4, value 4, mean 2) triggers, while the 1st (counter 0) does not. -/
theorem detect_loss_spike_outlier_spec_witness :
    ((detect_loss_spike streak4 4 2).2.outlier_counter = 5 ∧
      ((detect_loss_spike streak4 4 2).1 = true ↔ 4 < 5)) ∧
    ((detect_loss_spike (initDefault 0) 4 2).2.outlier_counter = 1 ∧
      ((detect_loss_spike (initDefault 0) 4 2).1 = true ↔ 4 < 1)) := by
  constructor
  · have h := detect_loss_spike_outlier_spec streak4 4 2
      (by norm_num [streak4, initDefault, init])
    simpa [streak4, initDefault, init] using h
  · have h := detect_loss_spike_outlier_spec (initDefault 0) 4 2
      (by norm_num [initDefault, init])
    simpa [initDefault, init] using h

/-- Claim C2: the persistent-high-value check returns true iff the current
step is at least twice the window size and the count of window entries
strictly above loss_cap is at least window_size / 2 under rational division;
below twice the window size it is false for every window contents. -/
theorem detect_high_losses_spec (s : KillLossSpike) (k : Nat) :
    (detect_high_losses s k = true ↔
      (2 * s.window_size ≤ k ∧
        (s.window_size : ℚ) / 2 ≤
          (countExceeding s.loss_window s.loss_cap : ℚ))) ∧
    (k < 2 * s.window_size → detect_high_losses s k = false) := by
  unfold detect_high_losses
  constructor
  · split
    · rename_i hk
      apply iff_of_false
      · simp
      · rintro ⟨h1, -⟩
        omega
    · rename_i hk
      simp only [decide_eq_true_eq]
      exact ⟨fun h => ⟨by omega, h⟩, fun h => h.2⟩
  · intro hk
    rw [if_pos (by omega)]

/-- Claim C6: a non-outlier observation reports not-triggered and leaves the
counter at exactly 0, whatever the previous streak length was (a no-op when
the counter is already 0). -/
theorem nonoutlier_resets_counter (s : KillLossSpike) (v m : ℚ)
    (h : v < m * s.outlier_multiplier) :
    (detect_loss_spike s v m).1 = false ∧
    (detect_loss_spike s v m).2 = { s with outlier_counter := 0 } := by
  have h' : ¬ (m * s.outlier_multiplier ≤ v) := not_le.mpr h
  simp only [detect_loss_spike, if_neg h']
  split
  · simp
  · rename_i h0
    have hz : s.outlier_counter = 0 := by omega
    refine ⟨rfl, ?_⟩
    cases s
    simp_all

/-- Claim C6 witness: a non-outlier (value 1, mean 2, multiplier 2) after a
streak of 4 resets the counter to 0 and reports not-triggered. -/
theorem nonoutlier_resets_counter_witness :
    (detect_loss_spike streak4 1 2).1 = false ∧
    (detect_loss_spike streak4 1 2).2 = { streak4 with outlier_counter := 0 } := by
  exact nonoutlier_resets_counter streak4 1 2
    (by norm_num [streak4, initDefault, init])

/-- Claim C10: the user-supplied flags are computed by comparing the
constructor arguments to the default constants (100 and 10), so passing the
default explicitly is indistinguishable from omitting the argument. -/
theorem user_defined_flags_by_default_comparison (rank : Nat) (lo : Bool)
    (p : Nat) (m : ℚ) (ws : Nat) (cap : ℚ) :
    (init rank lo p m ws cap).user_defined_window_size = decide (ws ≠ 100) ∧
    (init rank lo p m ws cap).user_defined_loss_cap = decide (cap ≠ 10) ∧
    (init rank lo p m 100 cap).user_defined_window_size = false ∧
    (init rank lo p m ws 10).user_defined_loss_cap = false ∧
    init rank lo p m 100 10 = init rank lo p m MIN_WINDOW_SIZE MAX_LOSS_CAP := by
  refine ⟨rfl, rfl, rfl, ?_, rfl⟩
  show decide ((10 : ℚ) ≠ MAX_LOSS_CAP) = false
  exact decide_eq_false (by norm_num [MAX_LOSS_CAP])

example : (batch_end (initDefault 0) (Loss.scalar 3) 0).state.loss_window = [3] := by
  norm_num [batch_end, initDefault, init, append_loss, pushWindow, MIN_WINDOW_SIZE, MAX_LOSS_CAP]
example : pythonRound (5/2) = 2 := by norm_num [pythonRound]
example : pythonRound (7/2) = 4 := by norm_num [pythonRound]
example : detect_high_losses { (initDefault 0) with window_size := 10, loss_window := [9,8,7,6,5,11,12,13,14,15] } 21 = true := by
  norm_num [detect_high_losses, countExceeding, initDefault, init, MAX_LOSS_CAP, List.countP, List.countP.go]
example : detect_high_losses { (initDefault 0) with window_size := 10, loss_window := [2,2,2,2,2,2,2,2,2,2] } 21 = false := by
  norm_num [detect_high_losses, countExceeding, initDefault, init, MAX_LOSS_CAP, List.countP, List.countP.go]
example : (detect_loss_spike { (initDefault 0) with outlier_counter := 4 } 4 2).1 = true := by
  norm_num [detect_loss_spike, initDefault, init]
example : (detect_loss_spike (initDefault 0) 4 2).1 = false := by
  norm_num [detect_loss_spike, initDefault, init]

/-- Claim C5 (code bug witness): a monitor constructed at global rank 1 has
enabled = false, yet batch_end still mutates the window, and on a loaded
state with log_only = false it even raises the spike condition: the enabled
flag is computed in the constructor but never consulted. -/
theorem rank_flag_unused :
    (initDefault 1).enabled = false ∧
    (batch_end (initDefault 1) (Loss.scalar 3) 0).state.loss_window = [3] ∧
    rank1Loaded.enabled = false ∧
    (batch_end rank1Loaded (Loss.scalar 9) 7).err =
      some (MonitorError.lossSpikeError 1 1 1) := by
  refine ⟨rfl, ?_, rfl, ?_⟩
  · norm_num [batch_end, initDefault, init, append_loss, pushWindow,
      MIN_WINDOW_SIZE, MAX_LOSS_CAP]
  · norm_num [batch_end, spike_step, calibrate_loss_cap, detect_loss_spike,
      listMean, running_avg, pythonRound, rank1Loaded, init,
      detect_high_losses]

/-- Claim C7: on a full-window step, if the spike detector signals, only the
spike handler runs (its metadata emission is the sole event), and the
persistent-high-value handler runs only on steps where the spike detector
did not signal. -/
theorem spike_priority (s : KillLossSpike) (v : ℚ) (k : Nat)
    (hfull : s.loss_window.length = s.window_size) :
    ((spike_step s v k).1 = true →
      (batch_end s (Loss.scalar v) k).events = [Telemetry.lossSpike]) ∧
    (Telemetry.highLoss ∈ (batch_end s (Loss.scalar v) k).events →
      (spike_step s v k).1 = false) := by
  simp only [batch_end, if_pos hfull]
  constructor
  · intro h
    rw [if_pos h]
    split <;> rfl
  · intro hmem
    cases hsp : (spike_step s v k).1
    · rfl
    · exfalso
      rw [if_pos hsp] at hmem
      revert hmem
      split <;> simp

/-- Claim C7 witness: at the loaded full-window state rank1Loaded the spike
detector signals, and the only handler invoked is the spike handler. -/
theorem spike_priority_witness :
    (batch_end rank1Loaded (Loss.scalar 9) 7).events = [Telemetry.lossSpike] := by
  have h := spike_priority rank1Loaded 9 7 (by norm_num [rank1Loaded, init])
  exact h.1 (by norm_num [spike_step, calibrate_loss_cap, detect_loss_spike,
    listMean, rank1Loaded, init])

/-- Claim C8 (amended): in log-only mode a scalar step never raises; with
log_only false, a spike detection raises the spike condition carrying
outlier_multiplier, the running mean rounded half-to-even to an integer, and
the incremented outlier_counter, while a persistent-high-value detection
raises the distinct high-loss condition carrying loss_cap and window_size. -/
theorem terminal_condition_spec (s : KillLossSpike) (v : ℚ) (k : Nat) :
    (s.log_only = true → (batch_end s (Loss.scalar v) k).err = none) ∧
    (s.log_only = false → s.loss_window.length = s.window_size →
      (spike_step s v k).1 = true →
      (batch_end s (Loss.scalar v) k).err =
        some (MonitorError.lossSpikeError
          (spike_step s v k).2.outlier_multiplier
          (pythonRound (running_avg s k))
          (spike_step s v k).2.outlier_counter)) ∧
    (s.log_only = false → s.loss_window.length = s.window_size →
      (spike_step s v k).1 = false →
      detect_high_losses (spike_step s v k).2 k = true →
      (batch_end s (Loss.scalar v) k).err =
        some (MonitorError.highLossError (spike_step s v k).2.loss_cap
          (spike_step s v k).2.window_size)) := by
  refine ⟨fun h => batch_end_err_none s v k h, ?_, ?_⟩
  · intro hlo hfull hsp
    have hl2 : ¬ ((spike_step s v k).2.log_only = true) := by
      rw [(spike_step_snd_fields s v k).2.1, hlo]
      simp
    simp only [batch_end, if_pos hfull, if_pos hsp, if_neg hl2]
  · intro hlo hfull hsp hhigh
    have hl2 : ¬ ((spike_step s v k).2.log_only = true) := by
      rw [(spike_step_snd_fields s v k).2.1, hlo]
      simp
    have hsp' : ¬ ((spike_step s v k).1 = true) := by simp [hsp]
    simp only [batch_end, if_pos hfull, if_neg hsp', if_pos hhigh, if_neg hl2]

/-- Claim C8 counterexample: at spikyHalf (running mean 5/2) the raised spike
condition carries the rounded integer 2, not the running mean 5/2 itself. -/
theorem spike_error_payload_rounded :
    (batch_end spikyHalf (Loss.scalar 100) 7).err =
      some (MonitorError.lossSpikeError 2 2 1) ∧
    running_avg spikyHalf 7 = 5 / 2 ∧ ((2 : ℤ) : ℚ) ≠ 5 / 2 := by
  refine ⟨?_, ?_, by norm_num⟩
  · norm_num [batch_end, spike_step, calibrate_loss_cap, detect_loss_spike,
      listMean, running_avg, pythonRound, spikyHalf, init, MAX_LOSS_CAP]
  · norm_num [running_avg, calibrate_loss_cap, listMean, spikyHalf, init,
      MAX_LOSS_CAP]

/-- Claim C8 witness: the spike conjunct of terminal_condition_spec applied
at spikyHalf with observation 100 at step 7. -/
theorem terminal_condition_spec_witness :
    (batch_end spikyHalf (Loss.scalar 100) 7).err =
      some (MonitorError.lossSpikeError
        (spike_step spikyHalf 100 7).2.outlier_multiplier
        (pythonRound (running_avg spikyHalf 7))
        (spike_step spikyHalf 100 7).2.outlier_counter) := by
  exact (terminal_condition_spec spikyHalf 100 7).2.1 rfl
    (by norm_num [spikyHalf, init])
    (by norm_num [spike_step, calibrate_loss_cap, detect_loss_spike, listMean,
      spikyHalf, init, MAX_LOSS_CAP])

/-- Claim C4 (amended): on every scalar step that does not raise — in
particular on every step in log-only mode — the observation is appended, so
the window becomes the most recent window_size entries of the old window
extended with the observation; a raising call returns with the append
skipped. -/
theorem window_appended_unless_raise (s : KillLossSpike) (v : ℚ) (k : Nat)
    (h : (batch_end s (Loss.scalar v) k).err = none) :
    (batch_end s (Loss.scalar v) k).state.loss_window =
      pushWindow s.loss_window s.window_size v := by
  have hw := (spike_step_snd_fields s v k).2.2.2.2.2.2.1
  have hs := (spike_step_snd_fields s v k).2.2.2.2.2.1
  revert h
  simp only [batch_end]
  repeat' split
  all_goals intro h
  all_goals simp_all [append_loss]

/-- Claim C4 witness: a fresh default monitor appends the first observation. -/
theorem window_appended_unless_raise_witness :
    (batch_end (initDefault 0) (Loss.scalar 3) 0).state.loss_window =
      pushWindow (initDefault 0).loss_window (initDefault 0).window_size 3 := by
  exact window_appended_unless_raise (initDefault 0) 3 0
    (by norm_num [batch_end, initDefault, init, MIN_WINDOW_SIZE, MAX_LOSS_CAP])

/-- Claim C4 counterexample: at spikyHalf with log_only = false the call
raises and the window still holds [2, 3]: the just-evaluated observation 100
was not appended. -/
theorem window_append_skipped_on_raise :
    ((batch_end spikyHalf (Loss.scalar 100) 7).err).isSome = true ∧
    (batch_end spikyHalf (Loss.scalar 100) 7).state.loss_window = [2, 3] ∧
    (100 : ℚ) ∉ [(2 : ℚ), 3] := by
  refine ⟨?_, ?_, by norm_num⟩
  · norm_num [batch_end, spike_step, calibrate_loss_cap, detect_loss_spike,
      listMean, running_avg, pythonRound, spikyHalf, init, MAX_LOSS_CAP]
  · norm_num [batch_end, spike_step, calibrate_loss_cap, detect_loss_spike,
      listMean, running_avg, pythonRound, spikyHalf, init, MAX_LOSS_CAP]

/-- Claim C9: when window_size was not user-supplied (still the default 100),
fit_start sets it to max(100, round(total × 0.05)), with the total taken from
epochs × steps-per-epoch or an explicit batch budget; with no reliable total
(no max_duration, unknown dataloader length, or another unit) the result is
exactly 100; the window is re-created empty before the first observation. -/
theorem window_size_calibration_spec (s : KillLossSpike)
    (max_duration : Option (TimeUnit × Nat)) (dataloader_len : Option Nat)
    (hud : s.user_defined_window_size = false)
    (hws : s.window_size = MIN_WINDOW_SIZE) :
    (∀ e d, max_duration = some (TimeUnit.epoch, e) → dataloader_len = some d →
      (fit_start s max_duration dataloader_len).window_size =
        max 100 (pythonRound (((d * e : Nat) : ℚ) * WINDOW_FRACTION)).toNat) ∧
    (∀ b, max_duration = some (TimeUnit.batch, b) →
      (fit_start s max_duration dataloader_len).window_size =
        max 100 (pythonRound ((b : ℚ) * WINDOW_FRACTION)).toNat) ∧
    (max_duration = none →
      (fit_start s max_duration dataloader_len).window_size = 100) ∧
    (∀ e, max_duration = some (TimeUnit.epoch, e) → dataloader_len = none →
      (fit_start s max_duration dataloader_len).window_size = 100) ∧
    (∀ w, max_duration = some (TimeUnit.other, w) →
      (fit_start s max_duration dataloader_len).window_size = 100) ∧
    (fit_start s max_duration dataloader_len).loss_window = [] := by
  refine ⟨?_, ?_, ?_, ?_, ?_, ?_⟩
  · rintro e d rfl rfl
    simp [fit_start, hud, hws, MIN_WINDOW_SIZE]
  · rintro b rfl
    simp [fit_start, hud, hws, MIN_WINDOW_SIZE]
  · rintro rfl
    simp [fit_start, hud, hws, MIN_WINDOW_SIZE]
  · rintro e rfl rfl
    norm_num [fit_start, hud, hws, MIN_WINDOW_SIZE, pythonRound,
      WINDOW_FRACTION]
  · rintro w rfl
    norm_num [fit_start, hud, hws, MIN_WINDOW_SIZE, pythonRound,
      WINDOW_FRACTION]
  · unfold fit_start
    split <;> simp

/-- Claim C9 witness: a 4000-batch budget calibrates the window to
max(100, round(4000 × 0.05)); with no max_duration it stays exactly 100. -/
theorem window_size_calibration_spec_witness :
    (fit_start (initDefault 0) (some (TimeUnit.batch, 4000)) none).window_size =
      max 100 (pythonRound ((4000 : ℚ) * WINDOW_FRACTION)).toNat ∧
    (fit_start (initDefault 0) none none).window_size = 100 := by
  constructor
  · exact (window_size_calibration_spec (initDefault 0)
      (some (TimeUnit.batch, 4000)) none rfl rfl).2.1 4000 rfl
  · exact (window_size_calibration_spec (initDefault 0) none none
      rfl rfl).2.2.1 rfl

theorem pushWindow_of_lt (w : List ℚ) (cap : Nat) (v : ℚ)
    (h : w.length < cap) : pushWindow w cap v = w ++ [v] := by
  unfold pushWindow
  rw [List.length_append]
  simp only [List.length_singleton]
  rw [Nat.sub_eq_zero_of_le (by omega), List.drop_zero]

theorem runSteps_warmup (l : List ℚ) (s : KillLossSpike) (k : Nat)
    (h : s.loss_window.length + l.length ≤ s.window_size) :
    runSteps s l k = ⟨{ s with loss_window := s.loss_window ++ l }, [], none⟩ := by
  induction l generalizing s k with
  | nil => simp [runSteps]
  | cons v rest ih =>
    have hlen : s.loss_window.length + (rest.length + 1) ≤ s.window_size := by
      simpa using h
    have hne : ¬ (s.loss_window.length = s.window_size) := by omega
    have hb : batch_end s (Loss.scalar v) k = ⟨append_loss s v, [], none⟩ := by
      simp only [batch_end, if_neg hne]
    have hap : append_loss s v =
        { s with loss_window := s.loss_window ++ [v] } := by
      unfold append_loss
      rw [pushWindow_of_lt _ _ _ (by omega)]
    have ih' := ih { s with loss_window := s.loss_window ++ [v] } (k + 1)
      (by simp only [List.length_append, List.length_singleton]; omega)
    simp only [runSteps, hb, hap, ih']
    simp

theorem runSteps_loss_cap_frozen (l : List ℚ) (s : KillLossSpike) (k : Nat)
    (hk : s.window_size < k) (hlog : s.log_only = true) :
    (runSteps s l k).state.loss_cap = s.loss_cap ∧
    (runSteps s l k).state.window_size = s.window_size := by
  induction l generalizing s k with
  | nil => exact ⟨rfl, rfl⟩
  | cons v rest ih =>
    have herr := batch_end_err_none s v k hlog
    obtain ⟨hws, hlo, -, -⟩ := batch_end_fields s v k
    have hcap := batch_end_loss_cap_of_ne s v k (by omega)
    have ih' := ih (batch_end s (Loss.scalar v) k).state (k + 1)
      (by rw [hws]; omega) (by rw [hlo, hlog])
    simp only [runSteps, herr]
    exact ⟨ih'.1.trans hcap, ih'.2.trans hws⟩

theorem runSteps_append_state (l1 l2 : List ℚ) (s : KillLossSpike) (k : Nat)
    (hlog : s.log_only = true) :
    (runSteps s (l1 ++ l2) k).state =
      (runSteps (runSteps s l1 k).state l2 (k + l1.length)).state := by
  induction l1 generalizing s k with
  | nil => simp [runSteps]
  | cons v rest ih =>
    have herr := batch_end_err_none s v k hlog
    obtain ⟨-, hlo, -, -⟩ := batch_end_fields s v k
    have ih' := ih (batch_end s (Loss.scalar v) k).state (k + 1)
      (by rw [hlo, hlog])
    have harith : k + 1 + rest.length = k + (rest.length + 1) := by omega
    rw [harith] at ih'
    simp only [List.cons_append, runSteps, herr, List.length_cons,
      List.append_eq]
    exact ih'

theorem batch_end_state_cases_full (s : KillLossSpike) (v : ℚ) (k : Nat)
    (hfull : s.loss_window.length = s.window_size) :
    (batch_end s (Loss.scalar v) k).state = append_loss (spike_step s v k).2 v ∨
    (batch_end s (Loss.scalar v) k).state = (spike_step s v k).2 := by
  simp only [batch_end, if_pos hfull]
  repeat' split
  all_goals simp

theorem batch_end_calibrates (s : KillLossSpike) (v : ℚ) (k : Nat)
    (hk : k = s.window_size)
    (hfull : s.loss_window.length = s.window_size)
    (hud : s.user_defined_loss_cap = false) :
    (batch_end s (Loss.scalar v) k).state.loss_cap =
      min (windowMax s.loss_window) s.loss_cap := by
  subst hk
  have hc : calibrate_loss_cap s s.window_size =
      { s with loss_cap := min (windowMax s.loss_window) s.loss_cap } := by
    unfold calibrate_loss_cap
    rw [if_pos ⟨hud, rfl⟩]
  have hcap : (spike_step s v s.window_size).2.loss_cap =
      min (windowMax s.loss_window) s.loss_cap := by
    rw [spike_step_loss_cap, hc]
  rcases batch_end_state_cases_full s v s.window_size hfull with h | h <;>
    rw [h] <;> simp [append_loss, hcap]

/-- Claim C3: starting from a fresh log-only monitor whose loss cap was not
user-supplied (window empty, loss_cap = 10), the cap is still 10 after any
run prefix of at most window_size steps, and from the step indexed
window_size — the step where the window first reaches full capacity — onwards
it equals min(max(first full window), 10) forever, whatever higher maxima
later windows contain. -/
theorem loss_cap_calibrated_once (s0 : KillLossSpike) (losses : List ℚ)
    (hwin : s0.loss_window = []) (hud : s0.user_defined_loss_cap = false)
    (hcap : s0.loss_cap = 10) (hlog : s0.log_only = true) :
    (∀ j, j ≤ s0.window_size → j ≤ losses.length →
      (runSteps s0 (losses.take j) 0).state.loss_cap = 10) ∧
    (∀ j, s0.window_size < j → j ≤ losses.length →
      (runSteps s0 (losses.take j) 0).state.loss_cap =
        min (windowMax (losses.take s0.window_size)) 10) := by
  constructor
  · intro j hj hjlen
    have hlen : (losses.take j).length = j := by
      rw [List.length_take]
      omega
    have hw := runSteps_warmup (losses.take j) s0 0
      (by rw [hwin, hlen]; simpa using hj)
    rw [hw]
    exact hcap
  · intro j hjW hjlen
    have hWlen : s0.window_size < losses.length := by omega
    have htWlen : (losses.take s0.window_size).length = s0.window_size := by
      rw [List.length_take]
      omega
    have hsplit : losses.take j =
        losses.take s0.window_size ++
          (losses.drop s0.window_size).take (j - s0.window_size) := by
      rw [← List.take_add]
      congr 1
      omega
    have hwarm := runSteps_warmup (losses.take s0.window_size) s0 0
      (by rw [hwin, htWlen]; simp)
    have hwarmState : (runSteps s0 (losses.take s0.window_size) 0).state =
        { s0 with loss_window := losses.take s0.window_size } := by
      rw [hwarm, hwin]
      simp
    rw [hsplit, runSteps_append_state _ _ _ _ hlog, hwarmState, htWlen,
      Nat.zero_add]
    rcases hc : (losses.drop s0.window_size).take (j - s0.window_size) with
      _ | ⟨t, trest⟩
    · exfalso
      have hlc := congrArg List.length hc
      rw [List.length_take, List.length_drop] at hlc
      simp at hlc
      omega
    have herr := batch_end_err_none
      { s0 with loss_window := losses.take s0.window_size } t s0.window_size
      hlog
    have hstep := batch_end_calibrates
      { s0 with loss_window := losses.take s0.window_size } t s0.window_size
      rfl htWlen hud
    have hfz := runSteps_loss_cap_frozen trest
      (batch_end { s0 with loss_window := losses.take s0.window_size }
        (Loss.scalar t) s0.window_size).state
      (s0.window_size + 1)
      (by
        rw [(batch_end_fields _ t _).1]
        exact Nat.lt_succ_self s0.window_size)
      (by
        rw [(batch_end_fields _ t _).2.1]
        exact hlog)
    simp only [runSteps, herr]
    rw [hfz.1, hstep]
    simp [hcap]

/-- Claim C3 witness: a window-size-1 log-only monitor on losses [3, 50, 2]
still has cap 10 after one step, and from the calibration step onwards the
cap is min(max([3]), 10) = 3, although the later window contains 50. -/
theorem loss_cap_calibrated_once_witness :
    (runSteps (init 0 true 4 2 1 10) ([3, 50, 2].take 1) 0).state.loss_cap = 10 ∧
    (runSteps (init 0 true 4 2 1 10) ([3, 50, 2].take 3) 0).state.loss_cap =
      min (windowMax ([3, 50, 2].take 1)) 10 := by
  have hud : (init 0 true 4 2 1 10).user_defined_loss_cap = false := by
    show decide ((10 : ℚ) ≠ MAX_LOSS_CAP) = false
    exact decide_eq_false (by norm_num [MAX_LOSS_CAP])
  have h := loss_cap_calibrated_once (init 0 true 4 2 1 10) [3, 50, 2]
    rfl hud rfl rfl
  exact ⟨h.1 1 (Nat.le_refl 1) (by norm_num), h.2 3 (by norm_num [init]) (by norm_num)⟩

/-- Claim C2 witness: during the buffer period (step 1 with window size 2)
the persistent-high-value check returns false. -/
theorem detect_high_losses_spec_witness :
    detect_high_losses spikyHalf 1 = false := by
  exact (detect_high_losses_spec spikyHalf 1).2
    (by norm_num [spikyHalf, init])
